import Mathlib

/-!
Shallow embedding of the youtube-video-downloader web application, and
verification of its natural-language specification against the code.

The embedding covers:
* the `VideoFormat` data model (`src/types/video.ts`) and the raw
  service-format normalization `parseFormat` of the `/api/info` route;
* the `/api/info` route handler (URL extraction/validation, error mapping,
  format normalization and filtering);
* the quality-option builder `qualityOptions` of the `QualitySelector`
  component;
* the `/api/download` proxy-relay handler;
* the client `Downloader` component: `downloadBlob`, `mergeWithFFmpeg`,
  `downloadVideo` and the sanitized-filename computation.

JavaScript strings are modelled as Lean `String`s; the per-character
operations (`toUpperCase`, `toLowerCase`, `replace` with a character class)
act on `String.data` lists.  JavaScript numbers that the code uses as
non-negative integers (heights, bitrates, itags) are modelled as `Nat`,
with comparator arithmetic in `Int` (no overflow is reachable for these
magnitudes).  `x || default` on possibly-absent values is modelled on
`Option` with JavaScript falsiness (`none`, `""` and `0` are falsy).
`Array.prototype.sort` is stable (ES2019), modelled by a stable insertion
sort driven by the source comparator.
-/

namespace YtDl

/-! ### JavaScript helpers -/

/-- JS `opt || default` for string-valued fields: `undefined` and `""` are
falsy. -/
def jsOrStr (o : Option String) (d : String) : String :=
  match o with
  | none => d
  | some s => if s = "" then d else s

/-- JS `opt || default` for number-valued fields: `undefined` and `0` are
falsy, so this coincides with `Option.getD` composed with a zero default. -/
def jsOrNat (o : Option Nat) (d : Nat) : Nat :=
  match o with
  | none => d
  | some n => if n = 0 then d else n

/-- JS `opt || false` for boolean fields. -/
def jsOrBool (o : Option Bool) (d : Bool) : Bool :=
  match o with
  | none => d
  | some b => if b = false then d else b

/-- JS `String.prototype.toUpperCase` restricted to the basic-latin range
(the containers occurring here are ASCII). -/
def jsToUpper (s : String) : String :=
  String.mk (s.data.map Char.toUpper)

/-- JS `String.prototype.toLowerCase` restricted to the basic-latin range. -/
def jsToLower (s : String) : String :=
  String.mk (s.data.map Char.toLower)

/-- Does `pat` occur at the head of `s`? -/
def listStartsWith [DecidableEq α] : List α → List α → Bool
  | [], _ => true
  | _ :: _, [] => false
  | p :: ps, x :: xs => p = x && listStartsWith ps xs

/-- Does `pat` occur as a contiguous sublist of `s`? -/
def listContainsSub [DecidableEq α] (pat : List α) : List α → Bool
  | [] => decide (pat = [])
  | x :: xs => listStartsWith pat (x :: xs) || listContainsSub pat xs

/-- JS `String.prototype.includes` (substring containment). -/
def jsIncludes (s pat : String) : Bool :=
  listContainsSub pat.data s.data

/-- One insertion step of a stable comparator sort: `x` is placed after
every already-placed element `y` with `cmp y x ≤ 0`. -/
def insertCmp (cmp : α → α → Int) (x : α) : List α → List α
  | [] => [x]
  | y :: ys => if cmp y x ≤ 0 then y :: insertCmp cmp x ys else x :: y :: ys

/-- Stable sort with a JS comparator (models `Array.prototype.sort`,
which is stable per ES2019): elements are inserted left to right, each
placed after all earlier elements that do not compare strictly greater. -/
def jsSort (cmp : α → α → Int) (l : List α) : List α :=
  l.foldl (fun acc x => insertCmp cmp x acc) []

/-! ### Data model (`src/types/video.ts`) -/

/-- `VideoFormat` of `src/types/video.ts`: one normalized stream
descriptor.  Fields that the TypeScript interface marks optional (or that
arrive as `undefined` at runtime) are `Option`s; `url` is `Option` because
the raw service format may lack one (the interface types it `string`, but
`parseFormat` copies the raw field through unchanged). -/
structure VideoFormat where
  itag : Nat
  url : Option String
  mimeType : String
  quality : String
  qualityLabel : Option String
  container : String
  hasVideo : Bool
  hasAudio : Bool
  videoCodec : Option String
  audioCodec : Option String
  width : Option Nat
  height : Option Nat
  fps : Option Nat
  bitrate : Option Nat
  contentLength : Option String
  deriving DecidableEq, Repr

/-- A raw format object as returned by the external resolution service
(`ytdl.videoFormat`): every normalized field may be absent. -/
structure RawFormat where
  itag : Nat
  url : Option String
  mimeType : Option String
  quality : Option String
  qualityLabel : Option String
  container : Option String
  hasVideo : Option Bool
  hasAudio : Option Bool
  videoCodec : Option String
  audioCodec : Option String
  width : Option Nat
  height : Option Nat
  fps : Option Nat
  bitrate : Option Nat
  contentLength : Option String
  deriving DecidableEq, Repr

/-- `parseFormat` of the `/api/info` route: normalize a raw service format
into a `VideoFormat` (`format.mimeType || ''`, `format.quality ||
'unknown'`, `format.container || 'mp4'`, `format.hasVideo || false`,
`format.hasAudio || false`; all other fields are copied unchanged). -/
def parseFormat (f : RawFormat) : VideoFormat :=
  { itag := f.itag
    url := f.url
    mimeType := jsOrStr f.mimeType ""
    quality := jsOrStr f.quality "unknown"
    qualityLabel := f.qualityLabel
    container := jsOrStr f.container "mp4"
    hasVideo := jsOrBool f.hasVideo false
    hasAudio := jsOrBool f.hasAudio false
    videoCodec := f.videoCodec
    audioCodec := f.audioCodec
    width := f.width
    height := f.height
    fps := f.fps
    bitrate := f.bitrate
    contentLength := f.contentLength }

/-- `QualityOption` of `src/types/video.ts`. -/
structure QualityOption where
  value : String
  label : String
  format : VideoFormat
  requiresMerge : Bool
  group : String
  deriving DecidableEq, Repr

/-! ### Quality Selector (`qualityOptions` in `QualitySelector`) -/

/-- Comparator of the audio-format sort:
`(a, b) => (b.bitrate || 0) - (a.bitrate || 0)`. -/
def audioCmp (a b : VideoFormat) : Int :=
  (b.bitrate.getD 0 : Int) - (a.bitrate.getD 0 : Int)

/-- Comparator of the video-format sort: height descending, ties broken by
bitrate descending (`aHeight !== bHeight ? bHeight - aHeight :
(b.bitrate||0) - (a.bitrate||0)`). -/
def videoCmp (a b : VideoFormat) : Int :=
  if a.height.getD 0 ≠ b.height.getD 0 then
    (b.height.getD 0 : Int) - (a.height.getD 0 : Int)
  else
    (b.bitrate.getD 0 : Int) - (a.bitrate.getD 0 : Int)

/-- The dedup key `` `${format.height || 0}-${format.hasAudio}` `` of the
video loop.  The interpolated string is determined by, and determines, the
pair `(height-or-0, hasAudio)` (a decimal numeral contains no `-`), so the
key is modelled as that pair. -/
def dedupKey (f : VideoFormat) : Nat × Bool :=
  (f.height.getD 0, f.hasAudio)

/-- `` `${format.height || '?'}p` `` , the fallback quality label: the
height, or `?` when the height is absent or zero (JS `0` is falsy). -/
def heightLabel (f : VideoFormat) : String :=
  (match f.height with
   | none => "?"
   | some h => if h = 0 then "?" else toString h) ++ "p"

/-- The body of the video loop: the `QualityOption` pushed for a video
format that survives dedup. -/
def mkVideoOption (f : VideoFormat) : QualityOption :=
  { value := "video-" ++ toString f.itag
    label :=
      jsOrStr f.qualityLabel (heightLabel f) ++ " " ++ jsToUpper f.container ++
        (if f.hasAudio then " (Video + Audio)"
         else " (Video Only - will merge with audio)")
    format := f
    requiresMerge := !f.hasAudio
    group := "video" }

/-- The `for (const format of videoFormats)` loop of `qualityOptions`:
walk the sorted video formats, skipping any whose dedup key is in `seen`,
emitting `mkVideoOption` and extending `seen` otherwise. -/
def videoWalk (seen : List (Nat × Bool)) : List VideoFormat → List QualityOption
  | [] => []
  | f :: fs =>
    if dedupKey f ∈ seen then videoWalk seen fs
    else mkVideoOption f :: videoWalk (dedupKey f :: seen) fs

/-- `qualityOptions` of the `QualitySelector` component: one best-audio
option (if any audio-only format exists), followed by the video options in
sorted, deduplicated order. -/
def qualityOptions (formats : List VideoFormat) : List QualityOption :=
  let audioFormats :=
    jsSort audioCmp (formats.filter (fun f => f.hasAudio && !f.hasVideo))
  let audioPart : List QualityOption :=
    match audioFormats with
    | [] => []
    | bestAudio :: _ =>
      [{ value := "audio-" ++ toString bestAudio.itag
         label := "MP3 Audio (Best Quality)"
         format := bestAudio
         requiresMerge := false
         group := "audio" }]
  let videoFormats := jsSort videoCmp (formats.filter (fun f => f.hasVideo))
  audioPart ++ videoWalk [] videoFormats

/-! ### Specification-side rendering of the Quality Selector (§4.3)

The definitions below follow the wording of the specification (claim C2),
not the component's code: the best audio descriptor is picked by a
running-maximum scan, the video formats are ordered by a boolean
"sorts-no-later-than" test on the pair (height, bitrate), and
deduplication keeps the first occurrence of each key by filtering the
tail.  They are proved extensionally equal to `qualityOptions`. -/

/-- One step of the specification's running-maximum audio scan: replace
the best candidate so far exactly when the next one has a strictly higher
bitrate (missing bitrate treated as 0). -/
def specBestStep (best : Option VideoFormat) (f : VideoFormat) : Option VideoFormat :=
  match best with
  | none => some f
  | some b => if b.bitrate.getD 0 < f.bitrate.getD 0 then some f else some b

/-- Spec §4.3 step 1: among the audio-only candidates, the one with the
highest bitrate (missing bitrate treated as 0); the earliest such
candidate when several tie. -/
def specBestAudio (l : List VideoFormat) : Option VideoFormat :=
  l.foldl specBestStep none

/-- Spec §4.3 step 2 ordering: `y` sorts no later than `x` in the
descending (height, then bitrate) order, missing values treated as 0. -/
def specVideoBefore (y x : VideoFormat) : Bool :=
  (decide (x.height.getD 0 < y.height.getD 0)) ||
    ((decide (y.height.getD 0 = x.height.getD 0)) &&
      (decide (x.bitrate.getD 0 ≤ y.bitrate.getD 0)))

/-- Stable insertion driven by a boolean "sorts-no-later-than" test. -/
def insertLe (le : α → α → Bool) (x : α) : List α → List α
  | [] => [x]
  | y :: ys => if le y x then y :: insertLe le x ys else x :: y :: ys

/-- Stable sort driven by a boolean "sorts-no-later-than" test. -/
def sortLe (le : α → α → Bool) (l : List α) : List α :=
  l.foldl (fun acc x => insertLe le x acc) []

/-- Spec §4.3 step 2 deduplication: keep each format and drop every later
format sharing its dedup key. -/
def firstByKey : List VideoFormat → List VideoFormat
  | [] => []
  | f :: fs => f :: firstByKey (fs.filter (fun g => dedupKey g ≠ dedupKey f))
termination_by l => l.length
decreasing_by
  simp only [List.length_cons]
  exact Nat.lt_succ_of_le (List.length_filter_le _ _)

/-- The `QualityOption` that the spec's wording assembles for a video
format: label `<qualityLabel-or-fallback> <CONTAINER>` plus the
audio-presence suffix, merge required exactly when audio is absent. -/
def specVideoOption (f : VideoFormat) : QualityOption :=
  { value := "video-" ++ toString f.itag
    label :=
      jsOrStr f.qualityLabel (heightLabel f) ++ " " ++ jsToUpper f.container ++
        (if f.hasAudio then " (Video + Audio)"
         else " (Video Only - will merge with audio)")
    format := f
    requiresMerge := !f.hasAudio
    group := "video" }

/-- §4.3 as the specification words it (with the corrected video-only
suffix): one best-audio option when an audio-only descriptor exists, then
the video descriptors sorted descending by (height, bitrate) and
deduplicated first-seen by (height-or-0, hasAudio). -/
def specQualityOptions (formats : List VideoFormat) : List QualityOption :=
  let audioPart : List QualityOption :=
    match specBestAudio (formats.filter (fun f => f.hasAudio && !f.hasVideo)) with
    | none => []
    | some best =>
      [{ value := "audio-" ++ toString best.itag
         label := "MP3 Audio (Best Quality)"
         format := best
         requiresMerge := false
         group := "audio" }]
  let sortedVideo := sortLe specVideoBefore (formats.filter (fun f => f.hasVideo))
  audioPart ++ (firstByKey sortedVideo).map specVideoOption

/-! ### Generic facts about the stable comparator sort -/

theorem insertCmp_eq_insertLe (cmp : α → α → Int) (le : α → α → Bool)
    (hcl : ∀ y x, (decide (cmp y x ≤ 0)) = le y x) (x : α) :
    ∀ l : List α, insertCmp cmp x l = insertLe le x l := by
  intro l
  induction l with
  | nil => rfl
  | cons y ys ih =>
    simp only [insertCmp, insertLe, ← hcl y x]
    by_cases h : cmp y x ≤ 0
    · simp [h, ih]
    · simp [h]

theorem jsSort_eq_sortLe (cmp : α → α → Int) (le : α → α → Bool)
    (hcl : ∀ y x, (decide (cmp y x ≤ 0)) = le y x) (l : List α) :
    jsSort cmp l = sortLe le l := by
  suffices h : ∀ (l acc : List α),
      l.foldl (fun acc x => insertCmp cmp x acc) acc =
        l.foldl (fun acc x => insertLe le x acc) acc from h l []
  intro l
  induction l with
  | nil => intro acc; rfl
  | cons x xs ih =>
    intro acc
    simp only [List.foldl_cons, insertCmp_eq_insertLe cmp le hcl, ih]

theorem insertCmp_perm (cmp : α → α → Int) (x : α) :
    ∀ l : List α, List.Perm (insertCmp cmp x l) (x :: l) := by
  intro l
  induction l with
  | nil => rfl
  | cons y ys ih =>
    simp only [insertCmp]
    by_cases h : cmp y x ≤ 0
    · simp only [if_pos h]
      exact (ih.cons y).trans (List.Perm.swap x y ys)
    · simp [if_neg h]

theorem jsSort_perm (cmp : α → α → Int) (l : List α) : List.Perm (jsSort cmp l) l := by
  suffices h : ∀ (l acc : List α),
      List.Perm (l.foldl (fun acc x => insertCmp cmp x acc) acc) (acc ++ l) by
    simpa using h l []
  intro l
  induction l with
  | nil => intro acc; simp
  | cons x xs ih =>
    intro acc
    have h1 : List.Perm ((x :: xs).foldl (fun acc x => insertCmp cmp x acc) acc)
        (insertCmp cmp x acc ++ xs) := ih _
    exact h1.trans (((insertCmp_perm cmp x acc).append_right xs).trans List.perm_middle.symm)

/-! ### The code's selector agrees with the specification's wording -/

theorem audioCmp_nonpos_iff (y x : VideoFormat) :
    audioCmp y x ≤ 0 ↔ x.bitrate.getD 0 ≤ y.bitrate.getD 0 := by
  simp only [audioCmp]
  omega

/-- The head of one audio insertion step is the running-best update. -/
theorem head_insertCmp_audio (x : VideoFormat) (acc : List VideoFormat) :
    (insertCmp audioCmp x acc).head? = specBestStep acc.head? x := by
  cases acc with
  | nil => rfl
  | cons y ys =>
    simp only [insertCmp, List.head?_cons, specBestStep]
    by_cases h : audioCmp y x ≤ 0
    · rw [if_pos h, List.head?_cons,
        if_neg (by have := (audioCmp_nonpos_iff y x).mp h; omega)]
    · rw [if_neg h, List.head?_cons,
        if_pos (by
          have : ¬ x.bitrate.getD 0 ≤ y.bitrate.getD 0 :=
            fun hc => h ((audioCmp_nonpos_iff y x).mpr hc)
          omega)]

/-- The specification's running-maximum audio pick is the head of the
code's bitrate-descending stable sort. -/
theorem specBestAudio_eq_head (l : List VideoFormat) :
    specBestAudio l = (jsSort audioCmp l).head? := by
  suffices h : ∀ (l acc : List VideoFormat),
      (l.foldl (fun acc x => insertCmp audioCmp x acc) acc).head? =
        l.foldl specBestStep acc.head? from (h l []).symm
  intro l
  induction l with
  | nil => intro acc; rfl
  | cons x xs ih =>
    intro acc
    simp only [List.foldl_cons]
    rw [ih, head_insertCmp_audio]

/-- The code's video comparator test coincides with the specification's
"sorts-no-later-than" test. -/
theorem videoCmp_le_iff (y x : VideoFormat) :
    (decide (videoCmp y x ≤ 0)) = specVideoBefore y x := by
  rw [Bool.eq_iff_iff]
  simp only [specVideoBefore, decide_eq_true_eq, Bool.or_eq_true, Bool.and_eq_true, videoCmp]
  by_cases h : y.height.getD 0 = x.height.getD 0
  · rw [if_neg (by omega)]
    constructor
    · intro hle; exact Or.inr ⟨h, by omega⟩
    · rintro (hlt | ⟨-, hle⟩) <;> omega
  · rw [if_pos (by omega)]
    constructor
    · intro hle; exact Or.inl (by omega)
    · rintro (hlt | ⟨he, -⟩) <;> omega

/-- The imperative dedup walk is the spec's first-occurrence-by-key
filter, applied to the formats whose key is not yet seen. -/
theorem videoWalk_eq (fs : List VideoFormat) : ∀ seen : List (Nat × Bool),
    videoWalk seen fs =
      (firstByKey (fs.filter (fun f => decide (dedupKey f ∉ seen)))).map mkVideoOption := by
  induction fs with
  | nil => intro seen; simp [videoWalk, firstByKey]
  | cons f fs ih =>
    intro seen
    by_cases h : dedupKey f ∈ seen
    · rw [List.filter_cons_of_neg (by simpa using h)]
      simp only [videoWalk, if_pos h]
      exact ih seen
    · rw [List.filter_cons_of_pos (by simpa using h)]
      simp only [videoWalk, if_neg h]
      rw [firstByKey, List.map_cons]
      congr 1
      rw [ih (dedupKey f :: seen)]
      congr 2
      rw [List.filter_filter]
      apply List.filter_congr
      intro g _
      rw [Bool.eq_iff_iff]
      simp [not_or, And.comm]

/-- C2 (amended): for every catalog, the component's `qualityOptions`
returns exactly the options the specification describes — the single
best-audio option (running bitrate maximum, first on ties) when an
audio-only descriptor exists, followed by the `hasVideo` descriptors
sorted descending by (height, bitrate), deduplicated first-seen by
(height-or-0, hasAudio), labelled `<qualityLabel-or-"<height>p">
<CONTAINER>` (with `?` for a missing or zero height) suffixed with
`" (Video + Audio)"` when the descriptor carries audio and
`" (Video Only - will merge with audio)"` (ASCII hyphen) otherwise, with
`requiresMerge = !hasAudio` — and nothing else, in exactly that order. -/
theorem specVideoOption_eq_mkVideoOption : specVideoOption = mkVideoOption := rfl

theorem C2_amended_theorem (formats : List VideoFormat) :
    qualityOptions formats = specQualityOptions formats := by
  have hfil : ∀ l : List VideoFormat,
      l.filter (fun f => decide (dedupKey f ∉ ([] : List (Nat × Bool)))) = l := by
    intro l
    apply List.filter_eq_self.mpr
    intro a _
    simp
  simp only [qualityOptions, specQualityOptions]
  rw [specBestAudio_eq_head, jsSort_eq_sortLe videoCmp specVideoBefore videoCmp_le_iff,
    videoWalk_eq, hfil, specVideoOption_eq_mkVideoOption]
  cases h : jsSort audioCmp (formats.filter fun f => f.hasAudio && !f.hasVideo) with
  | nil => simp
  | cons best rest => simp

/-! ### Injectivity of the decimal rendering of `Nat` (for option keys) -/

theorem digitChar_inj_lt :
    ∀ a < 10, ∀ b < 10, Nat.digitChar a = Nat.digitChar b → a = b := by
  decide

theorem map_digitChar_inj :
    ∀ l1 l2 : List Nat, (∀ d ∈ l1, d < 10) → (∀ d ∈ l2, d < 10) →
      l1.map Nat.digitChar = l2.map Nat.digitChar → l1 = l2 := by
  intro l1
  induction l1 with
  | nil =>
    intro l2 _ _ h
    cases l2 with
    | nil => rfl
    | cons b bs => simp at h
  | cons a as ih =>
    intro l2 h1 h2 h
    cases l2 with
    | nil => simp at h
    | cons b bs =>
      simp only [List.map_cons, List.cons.injEq] at h
      have ha : a = b :=
        digitChar_inj_lt a (h1 a (by simp)) b (h2 b (by simp)) h.1
      rw [ha, ih bs (fun d hd => h1 d (by simp [hd])) (fun d hd => h2 d (by simp [hd])) h.2]

theorem toDigitsCore_eq_digits :
    ∀ (fuel n : Nat) (acc : List Char), 0 < n → n < 10 ^ fuel →
      Nat.toDigitsCore 10 fuel n acc =
        ((Nat.digits 10 n).map Nat.digitChar).reverse ++ acc := by
  intro fuel
  induction fuel with
  | zero =>
    intro n acc hn hlt
    simp at hlt
    omega
  | succ fuel ih =>
    intro n acc hn hlt
    rw [Nat.toDigitsCore]
    by_cases h : n / 10 = 0
    · rw [if_pos h, Nat.digits_def' (b := 10) (by norm_num) hn, h, Nat.digits_zero]
      simp
    · rw [if_neg h,
        ih (n / 10) _ (Nat.pos_of_ne_zero h)
          (by
            rw [Nat.div_lt_iff_lt_mul (by norm_num)]
            calc n < 10 ^ (fuel + 1) := hlt
              _ = 10 ^ fuel * 10 := by ring),
        Nat.digits_def' (b := 10) (by norm_num) hn]
      simp [List.append_assoc]

theorem toDigits_eq_digits (n : Nat) (hn : 0 < n) :
    Nat.toDigits 10 n = ((Nat.digits 10 n).map Nat.digitChar).reverse := by
  rw [Nat.toDigits,
    toDigitsCore_eq_digits (n + 1) n [] hn
      (lt_of_lt_of_le (Nat.lt_pow_self (by norm_num) n)
        (Nat.pow_le_pow_right (by norm_num) (Nat.le_succ n)))]
  simp

theorem string_data_inj {s t : String} (h : s.data = t.data) : s = t := by
  cases s
  cases t
  exact congrArg String.mk h

theorem ofDigits_ten_single : Nat.ofDigits 10 [0] = 0 := by
  simp [Nat.ofDigits]

theorem natRepr_inj {m n : Nat} (h : Nat.repr m = Nat.repr n) : m = n := by
  have hdig : Nat.toDigits 10 m = Nat.toDigits 10 n := by
    have hd := congrArg String.data h
    simpa [Nat.repr, List.asString] using hd
  have hzero : ∀ k : Nat, 0 < k → Nat.toDigits 10 k = ['0'] → False := by
    intro k hk he
    rw [toDigits_eq_digits k hk] at he
    have hrev : (Nat.digits 10 k).map Nat.digitChar = ['0'] := by
      have := congrArg List.reverse he
      simpa using this
    have hmap : (Nat.digits 10 k).map Nat.digitChar = ([0] : List Nat).map Nat.digitChar := by
      simpa using hrev
    have hdgs : Nat.digits 10 k = [0] :=
      map_digitChar_inj _ _ (fun d hd => Nat.digits_lt_base (by norm_num) hd)
        (by simp) hmap
    have hk0 : k = 0 := by
      have := Nat.ofDigits_digits 10 k
      rw [hdgs, ofDigits_ten_single] at this
      omega
    omega
  rcases Nat.eq_zero_or_pos m with hm | hm
  · rcases Nat.eq_zero_or_pos n with hn | hn
    · omega
    · subst hm
      exact absurd hdig.symm (fun he => hzero n hn he)
  · rcases Nat.eq_zero_or_pos n with hn | hn
    · subst hn
      exact absurd hdig (fun he => hzero m hm he)
    · rw [toDigits_eq_digits m hm, toDigits_eq_digits n hn] at hdig
      have hmap : (Nat.digits 10 m).map Nat.digitChar = (Nat.digits 10 n).map Nat.digitChar :=
        List.reverse_inj.mp hdig
      have hdgs : Nat.digits 10 m = Nat.digits 10 n :=
        map_digitChar_inj _ _ (fun d hd => Nat.digits_lt_base (by norm_num) hd)
          (fun d hd => Nat.digits_lt_base (by norm_num) hd) hmap
      have := Nat.ofDigits_digits 10 m
      rw [hdgs, Nat.ofDigits_digits] at this
      omega

theorem string_append_data (a b : String) : (a ++ b).data = a.data ++ b.data := rfl

theorem videoValue_inj {m n : Nat} (h : "video-" ++ toString m = "video-" ++ toString n) :
    m = n := by
  apply natRepr_inj
  apply string_data_inj
  have hd := congrArg String.data h
  rw [string_append_data, string_append_data] at hd
  exact List.append_cancel_left hd

theorem audioValue_ne_videoValue (s t : String) : "audio-" ++ s ≠ "video-" ++ t := by
  intro h
  have hd : ("audio-" ++ s).data = ("video-" ++ t).data := congrArg String.data h
  have hd2 : ('a' :: ("udio-".data ++ s.data)) = ('v' :: ("ideo-".data ++ t.data)) := hd
  have : ('a' : Char) = 'v' := (List.cons.injEq _ _ _ _).mp hd2 |>.1
  exact absurd this (by decide)

/-! ### Distinctness of the option keys (claim C10) -/

theorem videoWalk_format_sublist (fs : List VideoFormat) :
    ∀ seen, List.Sublist ((videoWalk seen fs).map (fun o => o.format)) fs := by
  induction fs with
  | nil => intro seen; simp [videoWalk]
  | cons f fs ih =>
    intro seen
    by_cases h : dedupKey f ∈ seen
    · simp only [videoWalk, if_pos h]
      exact (ih seen).cons f
    · simp only [videoWalk, if_neg h, List.map_cons]
      exact (ih (dedupKey f :: seen)).cons₂ f

theorem videoWalk_value_eq (fs : List VideoFormat) :
    ∀ seen, (videoWalk seen fs).map (fun o => o.value) =
      ((videoWalk seen fs).map (fun o => o.format)).map
        (fun f => "video-" ++ toString f.itag) := by
  induction fs with
  | nil => intro seen; simp [videoWalk]
  | cons f fs ih =>
    intro seen
    by_cases h : dedupKey f ∈ seen
    · simp only [videoWalk, if_pos h]
      exact ih seen
    · simp only [videoWalk, if_neg h, List.map_cons]
      rw [ih (dedupKey f :: seen)]
      rfl

/-- C10: when the catalog's format tags are pairwise distinct, the
options produced by the quality selector have pairwise-distinct value
keys (`audio-<itag>` / `video-<itag>`), and pairwise-distinct descriptor
itags, so lookup by value key or by descriptor itag is unambiguous. -/
theorem C10_theorem (formats : List VideoFormat)
    (h : (formats.map (fun f => f.itag)).Nodup) :
    ((qualityOptions formats).map (fun o => o.value)).Nodup ∧
      ((qualityOptions formats).map (fun o => o.format.itag)).Nodup := by
  simp only [qualityOptions]
  set af := formats.filter (fun f => f.hasAudio && !f.hasVideo) with haf
  set vf := formats.filter (fun f => f.hasVideo) with hvf
  set sorted := jsSort videoCmp vf with hsorted
  set vopts := videoWalk [] sorted with hvopts
  have hsubl : List.Sublist (vopts.map (fun o => o.format)) sorted :=
    videoWalk_format_sublist sorted []
  have hperm : List.Perm sorted vf := jsSort_perm videoCmp vf
  have hvfsub : List.Sublist vf formats := List.filter_sublist formats
  have hvf_nodup : (vf.map (fun f => f.itag)).Nodup :=
    (hvfsub.map (fun f => f.itag)).nodup h
  have hsorted_nodup : (sorted.map (fun f => f.itag)).Nodup :=
    ((hperm.map (fun f => f.itag)).nodup_iff).mpr hvf_nodup
  have hvoptfmt_nodup : ((vopts.map (fun o => o.format)).map (fun f => f.itag)).Nodup :=
    (hsubl.map (fun f => f.itag)).nodup hsorted_nodup
  have hvopt_itag_nodup : (vopts.map (fun o => o.format.itag)).Nodup := by
    rw [show vopts.map (fun o => o.format.itag) =
      (vopts.map (fun o => o.format)).map (fun f => f.itag) by simp [List.map_map]]
    exact hvoptfmt_nodup
  have hvopt_val_nodup : (vopts.map (fun o => o.value)).Nodup := by
    rw [videoWalk_value_eq sorted [], show ((videoWalk [] sorted).map (fun o => o.format)).map
        (fun f => "video-" ++ toString f.itag) =
      ((videoWalk [] sorted).map (fun o => o.format)).map
        ((fun n => "video-" ++ toString n) ∘ (fun f => f.itag)) from rfl, ← List.map_map]
    exact List.Nodup.map (fun a b hab => videoValue_inj hab) hvoptfmt_nodup
  have hmem_vopt_fmt : ∀ g ∈ vopts.map (fun o => o.format), g ∈ formats ∧ g.hasVideo = true := by
    intro g hg
    have hg2 : g ∈ vf := hperm.subset (hsubl.subset hg)
    rw [hvf] at hg2
    have := List.mem_filter.mp hg2
    exact ⟨this.1, by simpa using this.2⟩
  cases hcs : jsSort audioCmp af with
  | nil =>
    simpa using ⟨hvopt_val_nodup, hvopt_itag_nodup⟩
  | cons best rest =>
    have hbest_mem : best ∈ af := by
      have : best ∈ jsSort audioCmp af := by rw [hcs]; exact List.mem_cons_self best rest
      exact (jsSort_perm audioCmp af).subset this
    have hbest := List.mem_filter.mp (haf ▸ hbest_mem)
    have hbest_noVideo : best.hasVideo = false := by
      rcases Bool.and_eq_true_iff.mp hbest.2 with ⟨-, hv⟩
      simpa using hv
    constructor
    · simp only [List.singleton_append, List.map_cons]
      refine List.nodup_cons.mpr ⟨?_, hvopt_val_nodup⟩
      intro hmem
      rw [videoWalk_value_eq sorted []] at hmem
      rcases List.mem_map.mp hmem with ⟨g, -, hgv⟩
      exact audioValue_ne_videoValue (toString best.itag) (toString g.itag) hgv.symm
    · simp only [List.singleton_append, List.map_cons]
      refine List.nodup_cons.mpr ⟨?_, hvopt_itag_nodup⟩
      intro hmem
      rcases List.mem_map.mp hmem with ⟨o, ho, hoi⟩
      have hofmt : o.format ∈ vopts.map (fun o => o.format) := List.mem_map_of_mem _ ho
      rcases hmem_vopt_fmt o.format hofmt with ⟨hmemF, hHasV⟩
      have : best = o.format :=
        List.inj_on_of_nodup_map h hbest.1 hmemF hoi.symm
      rw [← this] at hHasV
      rw [hbest_noVideo] at hHasV
      exact Bool.false_ne_true hHasV

/-! ### Concrete catalog of claim C1 -/

/-- The 128000-bitrate audio-only descriptor of claim C1 (itag 140). -/
def exA128 : VideoFormat :=
  { itag := 140, url := some "http://a128", mimeType := "audio/mp4", quality := "tiny",
    qualityLabel := none, container := "m4a", hasVideo := false, hasAudio := true,
    videoCodec := none, audioCodec := some "mp4a", width := none, height := none,
    fps := none, bitrate := some 128000, contentLength := none }

/-- The 64000-bitrate audio-only descriptor of claim C1 (itag 139). -/
def exA64 : VideoFormat :=
  { itag := 139, url := some "http://a64", mimeType := "audio/mp4", quality := "tiny",
    qualityLabel := none, container := "m4a", hasVideo := false, hasAudio := true,
    videoCodec := none, audioCodec := some "mp4a", width := none, height := none,
    fps := none, bitrate := some 64000, contentLength := none }

/-- The 1080p muxed (video+audio) descriptor of claim C1 (itag 22). -/
def exV1080a : VideoFormat :=
  { itag := 22, url := some "http://v1080a", mimeType := "video/mp4", quality := "hd1080",
    qualityLabel := some "1080p", container := "mp4", hasVideo := true, hasAudio := true,
    videoCodec := some "avc1", audioCodec := some "mp4a", width := some 1920,
    height := some 1080, fps := some 30, bitrate := some 5000000, contentLength := none }

/-- The 1080p video-only descriptor of claim C1 (itag 137). -/
def exV1080 : VideoFormat :=
  { itag := 137, url := some "http://v1080", mimeType := "video/mp4", quality := "hd1080",
    qualityLabel := some "1080p", container := "mp4", hasVideo := true, hasAudio := false,
    videoCodec := some "avc1", audioCodec := none, width := some 1920,
    height := some 1080, fps := some 30, bitrate := some 4000000, contentLength := none }

/-- The 720p muxed (video+audio) descriptor of claim C1 (itag 18). -/
def exV720a : VideoFormat :=
  { itag := 18, url := some "http://v720a", mimeType := "video/mp4", quality := "hd720",
    qualityLabel := some "720p", container := "mp4", hasVideo := true, hasAudio := true,
    videoCodec := some "avc1", audioCodec := some "mp4a", width := some 1280,
    height := some 720, fps := some 30, bitrate := some 3000000, contentLength := none }

/-- The catalog of claim C1: audio bitrates 128000 and 64000, and video
tiers 1080p+audio, 1080p-no-audio, 720p+audio. -/
def exCatalogC1 : List VideoFormat :=
  [exA128, exA64, exV1080a, exV1080, exV720a]

/-- A video-only descriptor with no quality label and no height: its
option label falls back to `?p`. -/
def exVnoH : VideoFormat :=
  { itag := 278, url := some "http://vnoh", mimeType := "video/webm", quality := "small",
    qualityLabel := none, container := "webm", hasVideo := true, hasAudio := false,
    videoCodec := some "vp9", audioCodec := none, width := none, height := none,
    fps := none, bitrate := some 100000, contentLength := none }

/-- C2, counterexample: the video-only suffix that the code produces uses
an ASCII hyphen, `" (Video Only - will merge with audio)"`, not the
em-dash `" (Video Only — will merge with audio)"` the claim quotes; and a
descriptor with a missing height is labelled `?p`, not `<height>p`. -/
theorem C2_counterexample :
    ((qualityOptions [exV1080]).map (fun o => o.label)) =
        ["1080p MP4 (Video Only - will merge with audio)"] ∧
      ¬ ((qualityOptions [exV1080]).map (fun o => o.label)) =
          ["1080p MP4 (Video Only — will merge with audio)"] ∧
      ((qualityOptions [exVnoH]).map (fun o => o.label)) =
        ["?p WEBM (Video Only - will merge with audio)"] := by
  decide

/-- C1, counterexample: on the claimed catalog `qualityOptions` returns 4
options, not 3, and the 1080p-no-audio descriptor (itag 137) does produce
an option — its dedup key `(1080, false)` differs from the muxed 1080p
entry's key `(1080, true)`, so it is not dropped. -/
theorem C1_counterexample :
    (qualityOptions exCatalogC1).length = 4 ∧
      ¬ (qualityOptions exCatalogC1).length = 3 ∧
      exV1080 ∈ (qualityOptions exCatalogC1).map (fun o => o.format) := by
  decide

/-- C1 (amended): `qualityOptions` on the claimed catalog returns exactly 4
options, in order: the audio option for the 128000-bitrate descriptor,
the 1080p video+audio option, the 1080p video-only option, then the 720p
option.  The 1080p-no-audio descriptor is not deduplicated away because
the dedup key pairs the height with `hasAudio`. -/
theorem C1_amended_theorem :
    qualityOptions exCatalogC1 =
      [ { value := "audio-140", label := "MP3 Audio (Best Quality)",
          format := exA128, requiresMerge := false, group := "audio" },
        { value := "video-22", label := "1080p MP4 (Video + Audio)",
          format := exV1080a, requiresMerge := false, group := "video" },
        { value := "video-137", label := "1080p MP4 (Video Only - will merge with audio)",
          format := exV1080, requiresMerge := true, group := "video" },
        { value := "video-18", label := "720p MP4 (Video + Audio)",
          format := exV720a, requiresMerge := false, group := "video" } ] := by
  decide

/-! ### Video Resolver: `extractVideoId` and id validation (`/api/info`) -/

/-- The terminator class `[&\n?#]` of the URL-pattern capture group. -/
def isIdStopChar (c : Char) : Bool :=
  c = '&' || c = '\n' || c = '?' || c = '#'

/-- The id character class `[a-zA-Z0-9_-]`. -/
def isValidIdChar (c : Char) : Bool :=
  c.isAlphanum || c = '_' || c = '-'

/-- The exact shape `[a-zA-Z0-9_-]{11}` demanded of a video id. -/
def valid11 (s : List Char) : Bool :=
  s.length = 11 && s.all isValidIdChar

/-- Try one alternative of the first URL pattern at the current position:
if `marker` is present here, capture the maximal nonempty run of
non-terminator characters after it. -/
def tryMarker (marker : List Char) (s : List Char) : Option (List Char) :=
  if listStartsWith marker s then
    let run := (s.drop marker.length).takeWhile (fun c => !isIdStopChar c)
    if run.isEmpty then none else some run
  else none

/-- Try the four alternatives
`youtube.com/watch?v=` | `youtu.be/` | `youtube.com/embed/` |
`youtube.com/v/` at the current position (at most one can match at a
given position, so alternation order is immaterial). -/
def tryMarkers (s : List Char) : Option (List Char) :=
  (tryMarker "youtube.com/watch?v=".data s).orElse fun _ =>
    (tryMarker "youtu.be/".data s).orElse fun _ =>
      (tryMarker "youtube.com/embed/".data s).orElse fun _ =>
        tryMarker "youtube.com/v/".data s

/-- Unanchored search of the first URL pattern
`(?:youtube\.com\/watch\?v=|youtu\.be\/|youtube\.com\/embed\/|youtube\.com\/v\/)([^&\n?#]+)`:
scan positions left to right, returning the first successful capture. -/
def findPattern1 : List Char → Option (List Char)
  | [] => none
  | c :: tail =>
    match tryMarkers (c :: tail) with
    | some run => some run
    | none => findPattern1 tail

/-- `extractVideoId` of the `/api/info` route: the first URL pattern
(searched anywhere in the input), then the anchored bare-token pattern
`^([a-zA-Z0-9_-]{11})$`; `null` when neither matches. -/
def extractVideoId (url : String) : Option String :=
  match findPattern1 url.data with
  | some run => some (String.mk run)
  | none => if valid11 url.data then some url else none

/-- The error codes of the `/api/info` route. -/
inductive InfoError where
  | MISSING_URL
  | INVALID_URL
  | INVALID_VIDEO_ID
  | SIGNATURE_ERROR
  | VIDEO_UNAVAILABLE
  | AGE_RESTRICTED
  | VIDEO_NOT_FOUND
  | RATE_LIMITED
  | FETCH_ERROR
  | INTERNAL_ERROR
  deriving DecidableEq, Repr

deriving instance DecidableEq for Except

/-- §4.1 `resolve`: URL-pattern extraction followed by id-shape
validation, exactly as the `/api/info` handler performs them
(`INVALID_URL` on pattern miss, `INVALID_VIDEO_ID` on shape violation). -/
def resolve (input : String) : Except InfoError String :=
  match extractVideoId input with
  | none => .error .INVALID_URL
  | some vid => if valid11 vid.data then .ok vid else .error .INVALID_VIDEO_ID

/-! ### Stream Catalog Builder: the `/api/info` route -/

/-- A thrown JS error as observed by the handlers: its `name` (e.g.
`AbortError` for a `DOMException` raised by an abort), its message, and
the optional `statusCode` field the server code inspects. -/
structure JsError where
  name : String
  message : String
  statusCode : Option Nat
  deriving DecidableEq, Repr

/-- The `videoDetails` of a raw service response (fields the handler
reads; a thumbnail entry's `url` may be absent). -/
structure RawVideoDetails where
  videoId : String
  title : String
  authorName : Option String
  thumbnails : List (Option String)
  lengthSeconds : Option String
  deriving DecidableEq, Repr

/-- A raw service response (`ytdl.videoInfo`): formats plus details. -/
structure RawInfo where
  formats : List RawFormat
  videoDetails : RawVideoDetails
  deriving DecidableEq, Repr

/-- JS `parseInt(s, 10)` restricted to leading decimal digits; `none`
models `NaN`. -/
def jsParseInt (s : String) : Option Nat :=
  let ds := s.data.takeWhile Char.isDigit
  if ds.isEmpty then none
  else some (ds.foldl (fun n c => n * 10 + (c.toNat - '0'.toNat)) 0)

/-- JS `String.prototype.padStart(2, '0')` for the sub-minute fields. -/
def pad2 (n : Nat) : String :=
  if n < 10 then "0" ++ toString n else toString n

/-- `formatDuration` of the `/api/info` route (`H:MM:SS` or `M:SS`). -/
def formatDuration (seconds : Nat) : String :=
  let hours := seconds / 3600
  let minutes := seconds % 3600 / 60
  let secs := seconds % 60
  if hours > 0 then
    toString hours ++ ":" ++ pad2 minutes ++ ":" ++ pad2 secs
  else
    toString minutes ++ ":" ++ pad2 secs

/-- JS `String.prototype.startsWith` on the character sequence. -/
def jsStartsWith (s pre : String) : Bool :=
  listStartsWith pre.data s.data

/-- The WebP test of the format filter:
`format.mimeType?.includes('webp') || format.container === 'webp'`. -/
def isWebP (f : VideoFormat) : Bool :=
  jsIncludes f.mimeType "webp" || f.container == "webp"

/-- The address test of the format filter:
`format.url && format.url.length > 0 && format.url.startsWith('http')`. -/
def hasValidUrl (f : VideoFormat) : Bool :=
  match f.url with
  | none => false
  | some u => decide (0 < u.length) && jsStartsWith u "http"

/-- The `data` payload of a successful `/api/info` response. -/
structure VideoInfoData where
  videoId : String
  title : String
  author : String
  thumbnail : String
  duration : Nat
  durationFormatted : String
  formats : List VideoFormat
  deriving DecidableEq, Repr

/-- An `/api/info` response: the JSON body plus the HTTP status. -/
structure InfoResponse where
  success : Bool
  data : Option VideoInfoData
  error : Option InfoError
  message : Option String
  status : Nat
  deriving DecidableEq, Repr

/-- Shorthand for the route's JSON error responses. -/
def infoErr (e : InfoError) (msg : String) (status : Nat) : InfoResponse :=
  { success := false, data := none, error := some e, message := some msg, status := status }

/-- The `/api/info` route handler.  `svc` is the outcome of the single
`ytdl.getInfo` call (the external video-resolution service). -/
def infoGET (url : Option String) (svc : Except JsError RawInfo) : InfoResponse :=
  match url with
  | none => infoErr .MISSING_URL "YouTube URL is required" 400
  | some u =>
    match extractVideoId u with
    | none => infoErr .INVALID_URL "Invalid YouTube URL format" 400
    | some videoId =>
      if !valid11 videoId.data then
        infoErr .INVALID_VIDEO_ID "Invalid video ID format" 400
      else
        match svc with
        | .error e =>
          if jsIncludes e.message "n transform" || jsIncludes e.message "signature" ||
              jsIncludes e.message "decipher" then
            infoErr .SIGNATURE_ERROR
              "YouTube signature parsing failed. This may be due to a YouTube update. Please try again later or update the ytdl-core library." 500
          else if jsIncludes e.message "Private video" || jsIncludes e.message "unavailable" then
            infoErr .VIDEO_UNAVAILABLE "This video is private or unavailable" 403
          else if jsIncludes e.message "Sign in to confirm your age" then
            infoErr .AGE_RESTRICTED "This video is age-restricted and cannot be downloaded" 403
          else if jsIncludes e.message "Video unavailable" then
            infoErr .VIDEO_NOT_FOUND "Video not found. Please check the URL and try again" 404
          else if e.statusCode == some 429 || jsIncludes e.message "rate limit" then
            infoErr .RATE_LIMITED "Too many requests. Please try again in a few moments" 429
          else
            infoErr .FETCH_ERROR "Failed to fetch video information. Please try again" 500
        | .ok info =>
          let formats :=
            (info.formats.map parseFormat).filter fun f => !isWebP f && hasValidUrl f
          let thumbnail :=
            jsOrStr (info.videoDetails.thumbnails.getLast?.bind id)
              ("https://img.youtube.com/vi/" ++ videoId ++ "/maxresdefault.jpg")
          let duration := (jsParseInt (jsOrStr info.videoDetails.lengthSeconds "0")).getD 0
          { success := true
            data := some
              { videoId := info.videoDetails.videoId
                title := info.videoDetails.title
                author := jsOrStr info.videoDetails.authorName "Unknown"
                thumbnail := thumbnail
                duration := duration
                durationFormatted := formatDuration duration
                formats := formats }
            error := none
            message := none
            status := 200 }

/-! ### Concrete service responses for the catalog-builder claims -/

/-- A raw WebP (storyboard-like) format: both its MIME type and its
container indicate WebP. -/
def exRawWebp : RawFormat :=
  { itag := 500, url := some "http://webp", mimeType := some "image/webp",
    quality := some "unknown", qualityLabel := none, container := some "webp",
    hasVideo := some true, hasAudio := some false, videoCodec := none, audioCodec := none,
    width := none, height := none, fps := none, bitrate := none, contentLength := none }

/-- A raw format whose playable address is the empty string. -/
def exRawNoUrl : RawFormat :=
  { itag := 501, url := some "", mimeType := some "video/mp4",
    quality := some "hd720", qualityLabel := some "720p", container := some "mp4",
    hasVideo := some true, hasAudio := some true, videoCodec := some "avc1",
    audioCodec := some "mp4a", width := some 1280, height := some 720, fps := some 30,
    bitrate := some 1000000, contentLength := none }

/-- A raw format carrying neither video nor audio, with a perfectly valid
http address and a non-WebP container. -/
def exRawNoAV : RawFormat :=
  { itag := 502, url := some "http://neither", mimeType := some "video/mp4",
    quality := some "unknown", qualityLabel := none, container := some "mp4",
    hasVideo := some false, hasAudio := some false, videoCodec := none, audioCodec := none,
    width := none, height := none, fps := none, bitrate := none, contentLength := none }

/-- Fixed video details for the example responses. -/
def exDetails : RawVideoDetails :=
  { videoId := "dQw4w9WgXcQ", title := "T", authorName := some "A",
    thumbnails := [some "http://t"], lengthSeconds := some "61" }

/-- A service response whose only formats are a WebP format and one with
an empty address: both are dropped, leaving zero candidates. -/
def exInfoFiltered : RawInfo :=
  { formats := [exRawWebp, exRawNoUrl], videoDetails := exDetails }

/-- A service response whose only format carries neither video nor
audio. -/
def exInfoNoAV : RawInfo :=
  { formats := [exRawNoAV], videoDetails := exDetails }

/-- The `data` payload `/api/info` produces for `exInfoNoAV`. -/
def exDataNoAV : VideoInfoData :=
  { videoId := "dQw4w9WgXcQ", title := "T", author := "A", thumbnail := "http://t",
    duration := 61, durationFormatted := "1:01", formats := [parseFormat exRawNoAV] }

/-- C3: on the success path (URL present, id extracted and valid, service
call succeeded), the `/api/info` formats list is exactly the normalized
descriptors passing the two filters (non-WebP container and MIME type;
present, non-empty, http-leading address), and the response is a success
regardless of how many descriptors survive — also when zero do. -/
theorem C3_theorem (u videoId : String) (info : RawInfo)
    (hex : extractVideoId u = some videoId) (hval : valid11 videoId.data = true) :
    (infoGET (some u) (.ok info)).success = true ∧
      ∃ d, (infoGET (some u) (.ok info)).data = some d ∧
        d.formats = (info.formats.map parseFormat).filter
          (fun f => !isWebP f && hasValidUrl f) := by
  simp [infoGET, hex, hval]

/-- Witness for C3: a catalog holding only a WebP descriptor and an
empty-address descriptor; both are excluded, zero descriptors remain, and
the endpoint still answers success with an empty formats list. -/
theorem C3_witness :
    ((exInfoFiltered.formats.map parseFormat).filter
        (fun f => !isWebP f && hasValidUrl f)) = [] ∧
      ((infoGET (some "https://www.youtube.com/watch?v=dQw4w9WgXcQ")
            (.ok exInfoFiltered)).success = true ∧
        ∃ d, (infoGET (some "https://www.youtube.com/watch?v=dQw4w9WgXcQ")
              (.ok exInfoFiltered)).data = some d ∧
          d.formats = (exInfoFiltered.formats.map parseFormat).filter
            (fun f => !isWebP f && hasValidUrl f)) :=
  ⟨by decide,
    C3_theorem "https://www.youtube.com/watch?v=dQw4w9WgXcQ" "dQw4w9WgXcQ" exInfoFiltered
      (by decide) (by decide)⟩

/-- C7, counterexample: `resolve "short"` fails with `INVALID_URL`, not
`INVALID_VIDEO_ID` — a bare token shorter than 11 characters matches
neither URL pattern (the bare-token pattern demands exactly 11 class
characters), so extraction itself fails and the id validation is never
reached. -/
theorem C7_counterexample :
    resolve "short" = .error .INVALID_URL ∧
      ¬ resolve "short" = .error .INVALID_VIDEO_ID := by
  decide

/-- C7 (amended): `resolve "not a url"` fails with `INVALID_URL`;
`resolve "short"` also fails with `INVALID_URL` (a bare token of the
wrong length matches no pattern at all); `INVALID_VIDEO_ID` arises
exactly when a URL pattern captures a token that deviates from
`[a-zA-Z0-9_-]{11}` — e.g. `resolve "https://youtu.be/short"` — and in
that case the `/api/info` handler answers `INVALID_VIDEO_ID` with
status 400. -/
theorem C7_amended_theorem :
    resolve "not a url" = .error .INVALID_URL ∧
      resolve "short" = .error .INVALID_URL ∧
      resolve "https://youtu.be/short" = .error .INVALID_VIDEO_ID ∧
      (∀ input id : String, extractVideoId input = some id → valid11 id.data = false →
        resolve input = .error .INVALID_VIDEO_ID) ∧
      (∀ (input id : String) (svc : Except JsError RawInfo),
        extractVideoId input = some id → valid11 id.data = false →
        infoGET (some input) svc = infoErr .INVALID_VIDEO_ID "Invalid video ID format" 400) := by
  refine ⟨by decide, by decide, by decide, ?_, ?_⟩
  · intro input id hex hval
    simp [resolve, hex, hval]
  · intro input id svc hex hval
    simp [infoGET, hex, hval]

/-- Witness for C7's general clauses at the concrete input
`https://youtu.be/bad` (captured token `bad`, 3 characters). -/
theorem C7_witness :
    (extractVideoId "https://youtu.be/bad" = some "bad" ∧ valid11 "bad".data = false) ∧
      resolve "https://youtu.be/bad" = .error .INVALID_VIDEO_ID :=
  ⟨⟨by decide, by decide⟩,
    C7_amended_theorem.2.2.2.1 "https://youtu.be/bad" "bad" (by decide) (by decide)⟩

/-- C8, counterexample: a descriptor with neither `hasVideo` nor
`hasAudio` but a valid http address and a non-WebP container survives the
catalog build and is handed to the selector — the invalid fourth
combination is not rejected. -/
theorem C8_counterexample :
    (parseFormat exRawNoAV).hasVideo = false ∧
      (parseFormat exRawNoAV).hasAudio = false ∧
      (infoGET (some "dQw4w9WgXcQ") (.ok exInfoNoAV)).success = true ∧
      ((infoGET (some "dQw4w9WgXcQ") (.ok exInfoNoAV)).data.map (fun d => d.formats)) =
        some [parseFormat exRawNoAV] := by
  decide

/-- C8 (amended): the catalog build guarantees only that every exposed
descriptor is non-WebP and has a present, non-empty, http-leading
address; it does not enforce `hasVideo ∨ hasAudio`, and a descriptor with
neither flag can appear in the formats list handed to the selector. -/
theorem C8_amended_theorem (u videoId : String) (info : RawInfo) (d : VideoInfoData)
    (hex : extractVideoId u = some videoId) (hval : valid11 videoId.data = true)
    (hd : (infoGET (some u) (.ok info)).data = some d) :
    ∀ f ∈ d.formats, isWebP f = false ∧ hasValidUrl f = true := by
  simp [infoGET, hex, hval] at hd
  intro f hf
  rw [← hd] at hf
  simp only [List.mem_filter] at hf
  have := hf.2
  simp only [Bool.and_eq_true, Bool.not_eq_true'] at this
  exact this

/-- Witness for C8's amended guarantee at the neither-flags catalog. -/
theorem C8_witness :
    (infoGET (some "dQw4w9WgXcQ") (.ok exInfoNoAV)).data = some exDataNoAV ∧
      (∀ f ∈ exDataNoAV.formats, isWebP f = false ∧ hasValidUrl f = true) :=
  ⟨by decide,
    C8_amended_theorem "dQw4w9WgXcQ" "dQw4w9WgXcQ" exInfoNoAV exDataNoAV
      (by decide) (by decide) (by decide)⟩

/-- Witness for C10 at the concrete catalog of claim C1 (pairwise-distinct
itags 140, 139, 22, 137, 18). -/
theorem C10_witness :
    (exCatalogC1.map (fun f => f.itag)).Nodup ∧
      (((qualityOptions exCatalogC1).map (fun o => o.value)).Nodup ∧
        ((qualityOptions exCatalogC1).map (fun o => o.format.itag)).Nodup) :=
  ⟨by decide, C10_theorem exCatalogC1 (by decide)⟩

/-! ### Client download filename (claim C9) -/

/-- The filename of a client-initiated save:
`title.replace(/[^a-z0-9]/gi, '_').toLowerCase() + '.' + container` —
each character outside `[a-zA-Z0-9]` is replaced by an underscore
individually, then the result is lower-cased. -/
def downloadFilename (title container : String) : String :=
  jsToLower (String.mk (title.data.map fun c => if c.isAlphanum then c else '_')) ++
    "." ++ container

/-- The filename as the (amended) specification words it: the title
lower-cased, then every non-alphanumeric character replaced by an
underscore, suffixed with a dot and the container extension. -/
def specFilename (title container : String) : String :=
  String.mk ((jsToLower title).data.map fun c => if c.isAlphanum then c else '_') ++
    "." ++ container

theorem uint32_le_iff (a b : UInt32) : a ≤ b ↔ a.toNat ≤ b.toNat :=
  Iff.trans UInt32.le_def BitVec.le_def

theorem isUpper_iff_toNat (c : Char) :
    c.isUpper = true ↔ 65 ≤ c.toNat ∧ c.toNat ≤ 90 := by
  simp only [Char.isUpper, Bool.and_eq_true, decide_eq_true_eq, ge_iff_le]
  rw [uint32_le_iff, uint32_le_iff]
  simp only [UInt32.toNat_ofNat, Char.toNat, UInt32.size]

theorem isLower_iff_toNat (c : Char) :
    c.isLower = true ↔ 97 ≤ c.toNat ∧ c.toNat ≤ 122 := by
  simp only [Char.isLower, Bool.and_eq_true, decide_eq_true_eq, ge_iff_le]
  rw [uint32_le_iff, uint32_le_iff]
  simp only [UInt32.toNat_ofNat, Char.toNat, UInt32.size]

theorem isDigit_iff_toNat (c : Char) :
    c.isDigit = true ↔ 48 ≤ c.toNat ∧ c.toNat ≤ 57 := by
  simp only [Char.isDigit, Bool.and_eq_true, decide_eq_true_eq, ge_iff_le]
  rw [uint32_le_iff, uint32_le_iff]
  simp only [UInt32.toNat_ofNat, Char.toNat, UInt32.size]

theorem isAlphanum_iff_toNat (c : Char) :
    c.isAlphanum = true ↔
      (65 ≤ c.toNat ∧ c.toNat ≤ 90) ∨ (97 ≤ c.toNat ∧ c.toNat ≤ 122) ∨
        (48 ≤ c.toNat ∧ c.toNat ≤ 57) := by
  simp only [Char.isAlphanum, Char.isAlpha, Bool.or_eq_true]
  rw [isUpper_iff_toNat, isLower_iff_toNat, isDigit_iff_toNat, or_assoc]

theorem toNat_ofNat_valid {m : Nat} (h : m.isValidChar) : (Char.ofNat m).toNat = m := by
  rw [Char.ofNat, dif_pos h]
  rfl

theorem toLower_toNat (c : Char) :
    (Char.toLower c).toNat =
      if 65 ≤ c.toNat ∧ c.toNat ≤ 90 then c.toNat + 32 else c.toNat := by
  rw [Char.toLower]
  by_cases h : c.toNat ≥ 65 ∧ c.toNat ≤ 90
  · rw [if_pos h, if_pos h]
    exact toNat_ofNat_valid (Or.inl (by omega))
  · rw [if_neg h, if_neg h]

/-- Lower-casing preserves alphanumericity (basic-latin). -/
theorem isAlphanum_toLower (c : Char) :
    (Char.toLower c).isAlphanum = c.isAlphanum := by
  rw [Bool.eq_iff_iff, isAlphanum_iff_toNat, isAlphanum_iff_toNat, toLower_toNat]
  by_cases h : 65 ≤ c.toNat ∧ c.toNat ≤ 90
  · rw [if_pos h]
    omega
  · rw [if_neg h]

/-- Underscore-replacement and lower-casing commute character-wise. -/
theorem step_toLower (c : Char) :
    Char.toLower (if c.isAlphanum then c else '_') =
      if (Char.toLower c).isAlphanum then Char.toLower c else '_' := by
  rw [isAlphanum_toLower]
  by_cases h : c.isAlphanum = true
  · rw [if_pos h, if_pos h]
  · rw [if_neg h, if_neg h]
    decide

/-- C9 (amended): the save filename equals the title lower-cased with
every non-alphanumeric character — individually, runs are not collapsed —
replaced by an underscore, suffixed with a dot and the container
extension (replacement and lower-casing commute, so the code's
replace-then-lowercase order meets this wording). -/
theorem C9_amended_theorem (title container : String) :
    downloadFilename title container = specFilename title container := by
  unfold downloadFilename specFilename
  congr 2
  show jsToLower (String.mk (title.data.map fun c => if c.isAlphanum then c else '_')) =
    String.mk ((jsToLower title).data.map fun c => if c.isAlphanum then c else '_')
  simp only [jsToLower, List.map_map]
  congr 1
  apply List.map_congr_left
  intro c _
  exact step_toLower c

/-- C9, counterexample: the code replaces each non-alphanumeric character
with its own underscore — a run of two spaces becomes two underscores,
not one, so maximal runs are not collapsed. -/
theorem C9_counterexample :
    downloadFilename "a  b" "mp4" = "a__b.mp4" ∧
      ¬ downloadFilename "a  b" "mp4" = "a_b.mp4" := by
  decide

/-! ### Mux Pipeline: `mergeWithFFmpeg` (claim C4) -/

/-- One call into the codec engine's virtual-filesystem / exec API. -/
inductive FFOp where
  | writeFile (name : String)
  | execCombine (args : List String)
  | readFile (name : String)
  | deleteFile (name : String)
  deriving DecidableEq, Repr

/-- The argv of the stream-copy combine (`-c:v copy -c:a aac -strict
experimental -shortest`). -/
def mergeArgs : List String :=
  ["-i", "video.mp4", "-i", "audio.mp4", "-c:v", "copy", "-c:a", "aac",
   "-strict", "experimental", "-shortest", "output.mp4"]

/-- Outcomes of the awaited engine calls inside one `mergeWithFFmpeg`
invocation (the payloads themselves are abstracted away). -/
structure MuxEnv where
  writeVideoRes : Except JsError Unit
  writeAudioRes : Except JsError Unit
  execRes : Except JsError Unit
  readRes : Except JsError Unit
  deriving DecidableEq, Repr

/-- `mergeWithFFmpeg` of the `Downloader` component, as the sequence of
engine calls it issues and its outcome: write both inputs, run the
combine, read the output, then delete the three virtual files.  Each call
is awaited in sequence with no `try`/`finally`, so the first rejection
aborts the function and propagates the rejecting error unchanged. -/
def mergeWithFFmpeg (env : MuxEnv) : List FFOp × Except JsError Unit :=
  let t1 := [FFOp.writeFile "video.mp4"]
  match env.writeVideoRes with
  | .error e => (t1, .error e)
  | .ok _ =>
    let t2 := t1 ++ [FFOp.writeFile "audio.mp4"]
    match env.writeAudioRes with
    | .error e => (t2, .error e)
    | .ok _ =>
      let t3 := t2 ++ [FFOp.execCombine mergeArgs]
      match env.execRes with
      | .error e => (t3, .error e)
      | .ok _ =>
        let t4 := t3 ++ [FFOp.readFile "output.mp4"]
        match env.readRes with
        | .error e => (t4, .error e)
        | .ok _ =>
          (t4 ++ [FFOp.deleteFile "video.mp4", FFOp.deleteFile "audio.mp4",
                  FFOp.deleteFile "output.mp4"], .ok ())

/-- Is an engine call a virtual-file deletion? -/
def isDeleteOp : FFOp → Bool
  | .deleteFile _ => true
  | _ => false

/-- C4, counterexample: when the combine (`exec`) step fails, the
invocation issues no deletion at all — the cleanup is skipped, not
guaranteed — while the engine's error message does propagate unchanged. -/
theorem C4_counterexample :
    ((mergeWithFFmpeg
        ⟨.ok (), .ok (), .error ⟨"Error", "ffmpeg exec failed", none⟩, .ok ()⟩).1.filter
          isDeleteOp) = [] ∧
      (mergeWithFFmpeg
          ⟨.ok (), .ok (), .error ⟨"Error", "ffmpeg exec failed", none⟩, .ok ()⟩).2 =
        .error ⟨"Error", "ffmpeg exec failed", none⟩ := by
  decide

/-- C4 (amended): the three virtual-file deletions are issued only on the
all-success path, after the combine and the output read both succeed; a
failing combine aborts the invocation before any deletion is issued
(leaking the virtual files) and propagates the engine's error unchanged
to the caller. -/
theorem C4_amended_theorem (env : MuxEnv) :
    (∀ e : JsError, env.writeVideoRes = .ok () → env.writeAudioRes = .ok () →
      env.execRes = .error e →
      (mergeWithFFmpeg env).1.filter isDeleteOp = [] ∧
        (mergeWithFFmpeg env).2 = .error e) ∧
      (env.writeVideoRes = .ok () → env.writeAudioRes = .ok () → env.execRes = .ok () →
        env.readRes = .ok () →
        (mergeWithFFmpeg env).1.filter isDeleteOp =
            [FFOp.deleteFile "video.mp4", FFOp.deleteFile "audio.mp4",
             FFOp.deleteFile "output.mp4"] ∧
          (mergeWithFFmpeg env).2 = .ok ()) := by
  obtain ⟨wv, wa, ex, rd⟩ := env
  constructor
  · intro e hv ha hx
    cases hv
    cases ha
    cases hx
    constructor
    · rfl
    · rfl
  · intro hv ha hx hr
    cases hv
    cases ha
    cases hx
    cases hr
    constructor
    · rfl
    · rfl

/-- Witness for C4's amended clauses: a failing combine issues no
deletion and surfaces `ffmpeg exec failed`; an all-success run issues
exactly the three deletions. -/
theorem C4_witness :
    (((mergeWithFFmpeg
          ⟨.ok (), .ok (), .error ⟨"Error", "boom", none⟩, .ok ()⟩).1.filter isDeleteOp) = [] ∧
        (mergeWithFFmpeg ⟨.ok (), .ok (), .error ⟨"Error", "boom", none⟩, .ok ()⟩).2 =
          .error ⟨"Error", "boom", none⟩) ∧
      (((mergeWithFFmpeg ⟨.ok (), .ok (), .ok (), .ok ()⟩).1.filter isDeleteOp) =
          [FFOp.deleteFile "video.mp4", FFOp.deleteFile "audio.mp4",
           FFOp.deleteFile "output.mp4"] ∧
        (mergeWithFFmpeg ⟨.ok (), .ok (), .ok (), .ok ()⟩).2 = .ok ()) :=
  ⟨(C4_amended_theorem _).1 ⟨"Error", "boom", none⟩ rfl rfl rfl,
    (C4_amended_theorem _).2 rfl rfl rfl rfl⟩

/-! ### Transfer orchestration: `downloadVideo` (claim C6) -/

/-- `DownloadProgress` of `src/types/video.ts` (stage is one of `idle`,
`fetching`, `downloading`, `merging`, `complete`). -/
structure DownloadProgress where
  stage : String
  progress : Nat
  message : Option String
  deriving DecidableEq, Repr

/-- The observable outcome of one `downloadVideo` invocation: which
transfers were initiated, whether the mux pipeline was invoked, and the
final error/progress state. -/
structure DlRun where
  videoFetchStarted : Bool
  audioFetchStarted : Bool
  mergeInvoked : Bool
  finalError : Option String
  finalProgress : DownloadProgress
  deriving DecidableEq, Repr

/-- The `DOMException('Aborted', 'AbortError')` with which the abort
listener rejects an in-flight `downloadBlob`. -/
def abortError : JsError := ⟨"AbortError", "Aborted", none⟩

/-- The generic fallback message of the catch handler. -/
def genericDownloadError : String := "Failed to download video. Please try again."

def tip403merge : String :=
  "\n\n💡 Tip: YouTube is blocking server-side downloads for formats requiring merging. Please select a combined format (video+audio) which uses native browser download and works reliably."

def tip403other : String :=
  "\n\n💡 Tip: YouTube may be blocking this request. Try selecting a different format or wait a few minutes."

def tipSignature : String :=
  "\n\n💡 Tip: YouTube has updated their security. The ytdl-core library may need an update. Try selecting a combined format (video+audio) which works more reliably."

def tipNotAvailable : String :=
  "\n\n💡 Tip: This format is not available. Please select a different format. Combined formats (video+audio) are usually more reliable."

/-- The catch handler of `downloadVideo`: an `AbortError` yields the
cancellation-specific indicator; anything else yields the error message
(or the generic fallback) plus a guidance tip keyed on its content. -/
def downloadCatch (fmt? : Option VideoFormat) (e : JsError) : Option String :=
  if e.name = "AbortError" then some "Download cancelled"
  else
    let errorMsg := if e.message = "" then genericDownloadError else e.message
    if jsIncludes errorMsg "403" || jsIncludes errorMsg "ACCESS_DENIED" ||
        jsIncludes errorMsg "forbidden" then
      match fmt? with
      | some f =>
        if !f.hasAudio then some (errorMsg ++ tip403merge)
        else some (errorMsg ++ tip403other)
      | none => some (errorMsg ++ tip403other)
    else if jsIncludes errorMsg "SIGNATURE_ERROR" || jsIncludes errorMsg "n transform" ||
        jsIncludes errorMsg "decipher" then
      some (errorMsg ++ tipSignature)
    else if jsIncludes errorMsg "NO_URL" || jsIncludes errorMsg "FORMAT_NOT_FOUND" then
      some (errorMsg ++ tipNotAvailable)
    else some errorMsg

/-- `downloadVideo` of the `Downloader` component.  `videoRes` and
`audioRes` are the outcomes of the two `downloadBlob` awaits (a download
cancelled while a fetch is in flight surfaces as that await rejecting
with `abortError`); `mux` carries the engine outcomes for the merge.  A
muxed or audio-only choice triggers a native save and completes without
`downloadBlob`; a video-only choice fetches video then audio then merges;
the first rejection jumps to the catch handler, which resets the stage to
`idle`. -/
def downloadVideo (fmt? : Option VideoFormat) (info? : Option VideoInfoData)
    (videoRes audioRes : Except JsError Unit) (mux : MuxEnv) : DlRun :=
  match fmt?, info? with
  | some fmt, some info =>
    if fmt.hasVideo && fmt.hasAudio then
      { videoFetchStarted := false, audioFetchStarted := false, mergeInvoked := false,
        finalError := none,
        finalProgress :=
          ⟨"complete", 100, some "Download started! Check your downloads folder."⟩ }
    else if fmt.hasVideo && !fmt.hasAudio then
      let audioFormats := info.formats.filter fun f => f.hasAudio && !f.hasVideo
      if audioFormats.isEmpty then
        { videoFetchStarted := false, audioFetchStarted := false, mergeInvoked := false,
          finalError :=
            downloadCatch (some fmt) ⟨"Error", "No audio stream available for merging", none⟩,
          finalProgress := ⟨"idle", 0, none⟩ }
      else
        match videoRes with
        | .error e =>
          { videoFetchStarted := true, audioFetchStarted := false, mergeInvoked := false,
            finalError := downloadCatch (some fmt) e,
            finalProgress := ⟨"idle", 0, none⟩ }
        | .ok _ =>
          match audioRes with
          | .error e =>
            { videoFetchStarted := true, audioFetchStarted := true, mergeInvoked := false,
              finalError := downloadCatch (some fmt) e,
              finalProgress := ⟨"idle", 0, none⟩ }
          | .ok _ =>
            match (mergeWithFFmpeg mux).2 with
            | .error e =>
              { videoFetchStarted := true, audioFetchStarted := true, mergeInvoked := true,
                finalError := downloadCatch (some fmt) e,
                finalProgress := ⟨"idle", 0, none⟩ }
            | .ok _ =>
              { videoFetchStarted := true, audioFetchStarted := true, mergeInvoked := true,
                finalError := none,
                finalProgress := ⟨"complete", 100, some "Download complete!"⟩ }
    else if fmt.hasAudio && !fmt.hasVideo then
      { videoFetchStarted := false, audioFetchStarted := false, mergeInvoked := false,
        finalError := none,
        finalProgress :=
          ⟨"complete", 100, some "Download started! Check your downloads folder."⟩ }
    else
      { videoFetchStarted := false, audioFetchStarted := false, mergeInvoked := false,
        finalError := none,
        finalProgress := ⟨"downloading", 0, some "Starting download..."⟩ }
  | _, _ =>
    { videoFetchStarted := false, audioFetchStarted := false, mergeInvoked := false,
      finalError := some "Please select a quality/format",
      finalProgress := ⟨"idle", 0, none⟩ }

/-- C6: cancelling while the video fetch is in flight (the fetch rejects
with the abort exception) leaves stage `idle` with the
cancellation-specific indicator `Download cancelled` — distinct from the
generic failure message — and the audio fetch is never initiated. -/
theorem C6_theorem (fmt : VideoFormat) (info : VideoInfoData)
    (audioRes : Except JsError Unit) (mux : MuxEnv)
    (hv : fmt.hasVideo = true) (ha : fmt.hasAudio = false)
    (hne : (info.formats.filter fun f => f.hasAudio && !f.hasVideo) ≠ []) :
    (downloadVideo (some fmt) (some info) (.error abortError) audioRes mux).finalProgress =
        ⟨"idle", 0, none⟩ ∧
      (downloadVideo (some fmt) (some info) (.error abortError) audioRes mux).finalError =
        some "Download cancelled" ∧
      (downloadVideo (some fmt) (some info) (.error abortError) audioRes mux).audioFetchStarted =
        false ∧
      "Download cancelled" ≠ genericDownloadError := by
  cases hfl : info.formats.filter fun f => f.hasAudio && !f.hasVideo with
  | nil => exact absurd hfl hne
  | cons f fs =>
    refine ⟨?_, ?_, ?_, by decide⟩ <;>
      simp [downloadVideo, hv, ha, hfl, downloadCatch, abortError]

/-- Witness for C6 at the video-only 1080p descriptor with one audio-only
descriptor in the catalog. -/
theorem C6_witness :
    (downloadVideo (some exV1080)
          (some { videoId := "dQw4w9WgXcQ", title := "T", author := "A",
                  thumbnail := "http://t", duration := 61, durationFormatted := "1:01",
                  formats := [exA128, exV1080] })
          (.error abortError) (.ok ()) ⟨.ok (), .ok (), .ok (), .ok ()⟩).finalProgress =
        ⟨"idle", 0, none⟩ ∧
      (downloadVideo (some exV1080)
          (some { videoId := "dQw4w9WgXcQ", title := "T", author := "A",
                  thumbnail := "http://t", duration := 61, durationFormatted := "1:01",
                  formats := [exA128, exV1080] })
          (.error abortError) (.ok ()) ⟨.ok (), .ok (), .ok (), .ok ()⟩).finalError =
        some "Download cancelled" ∧
      (downloadVideo (some exV1080)
          (some { videoId := "dQw4w9WgXcQ", title := "T", author := "A",
                  thumbnail := "http://t", duration := 61, durationFormatted := "1:01",
                  formats := [exA128, exV1080] })
          (.error abortError) (.ok ()) ⟨.ok (), .ok (), .ok (), .ok ()⟩).audioFetchStarted =
        false ∧
      "Download cancelled" ≠ genericDownloadError :=
  C6_theorem exV1080
    { videoId := "dQw4w9WgXcQ", title := "T", author := "A", thumbnail := "http://t",
      duration := 61, durationFormatted := "1:01", formats := [exA128, exV1080] }
    (.ok ()) ⟨.ok (), .ok (), .ok (), .ok ()⟩ (by decide) (by decide) (by decide)

/-! ### Proxy Relay: the `/api/download` route (claim C5) -/

/-- The spoofed browser identity. -/
def chromeUA : String :=
  "Mozilla/5.0 (Windows NT 10.0; Win64; x64) AppleWebKit/537.36 (KHTML, like Gecko) Chrome/131.0.0.0 Safari/537.36"

/-- The headers handed to the resolution service's own download call
(`ytdl.downloadFromInfo` request options).  Note: no `Range` entry. -/
def primaryHeaders : List (String × String) :=
  [("User-Agent", chromeUA), ("Referer", "https://www.youtube.com/"),
   ("Origin", "https://www.youtube.com"), ("Accept", "*/*"),
   ("Accept-Language", "en-US,en;q=0.9")]

/-- The base headers of the direct-fetch fallback (before the optional
`Range`). -/
def fallbackBaseHeaders : List (String × String) :=
  [("User-Agent", chromeUA), ("Referer", "https://www.youtube.com/"),
   ("Origin", "https://www.youtube.com"), ("Accept", "*/*"),
   ("Accept-Language", "en-US,en;q=0.9"), ("Accept-Encoding", "identity")]

/-- The permissive cross-origin headers of the streaming responses. -/
def corsHeaders : List (String × String) :=
  [("Access-Control-Allow-Origin", "*"),
   ("Access-Control-Allow-Methods", "GET, HEAD, OPTIONS"),
   ("Access-Control-Allow-Headers", "Range"),
   ("Access-Control-Expose-Headers", "Content-Length, Content-Range, Accept-Ranges")]

/-- The error codes of the `/api/download` route. -/
inductive DlCode where
  | MISSING_PARAMS
  | SIGNATURE_ERROR
  | FETCH_ERROR
  | FORMAT_NOT_FOUND
  | NO_URL
  | WEBP_NOT_SUPPORTED
  | ACCESS_DENIED
  | DOWNLOAD_FAILED
  | INTERNAL_ERROR
  deriving DecidableEq, Repr

/-- The body of a `/api/download` response: the proxied byte stream or a
JSON error. -/
inductive ProxyBody where
  | stream
  | jsonError (code : DlCode) (message : String)
  deriving DecidableEq, Repr

/-- An HTTP response of the `/api/download` route. -/
structure ProxyResponse where
  status : Nat
  headers : List (String × String)
  body : ProxyBody
  deriving DecidableEq, Repr

/-- The upstream response observed by the direct-fetch fallback. -/
structure FetchResponse where
  ok : Bool
  status : Nat
  statusText : String
  contentType : Option String
  contentLength : Option String
  acceptRanges : Option String
  contentRange : Option String
  deriving DecidableEq, Repr

/-- Outcomes of the route's awaited external calls. -/
structure ProxyEnv where
  getInfoRes : Except JsError RawInfo
  primaryRes : Except JsError Unit
  fallbackRes : Except JsError FetchResponse
  deriving DecidableEq, Repr

/-- What one `/api/download` request did: the headers sent upstream on
each path that was taken, and the response returned. -/
structure ProxyOutcome where
  primaryHeadersSent : Option (List (String × String))
  fallbackHeadersSent : Option (List (String × String))
  response : ProxyResponse
  deriving DecidableEq, Repr

/-- JS truthiness of a nullable string (`null`/absent and `""` are
falsy). -/
def jsTruthy : Option String → Bool
  | none => false
  | some s => s ≠ ""

/-- JS `a || b` where both operands are nullable strings. -/
def jsOrOptStr (a b : Option String) : Option String :=
  match a with
  | none => b
  | some s => if s = "" then b else some s

/-- An optional header entry for a truthy nullable value. -/
def optHeader (name : String) (v : Option String) : List (String × String) :=
  match v with
  | none => []
  | some s => if s = "" then [] else [(name, s)]

/-- The `/api/download` (proxy relay) route handler.  `env` carries the
outcomes of `ytdl.getInfo`, `ytdl.downloadFromInfo` (primary) and the
direct `fetch` of the format address (fallback). -/
def downloadGET (videoId itag range : Option String) (env : ProxyEnv) : ProxyOutcome :=
  if !(jsTruthy videoId && jsTruthy itag) then
    ⟨none, none, ⟨400, [], .jsonError .MISSING_PARAMS "Video ID and itag are required"⟩⟩
  else
    match env.getInfoRes with
    | .error e =>
      if jsIncludes e.message "n transform" || jsIncludes e.message "signature" ||
          jsIncludes e.message "decipher" then
        ⟨none, none,
         ⟨500, [], .jsonError .SIGNATURE_ERROR
           "YouTube signature parsing failed. Please try fetching the video info again or select a different format."⟩⟩
      else
        ⟨none, none, ⟨500, [], .jsonError .FETCH_ERROR "Failed to fetch video information"⟩⟩
    | .ok info =>
      let found : Option RawFormat :=
        match jsParseInt (itag.getD "") with
        | none => none
        | some n => info.formats.find? fun f => f.itag == n
      match found with
      | none =>
        ⟨none, none,
         ⟨404, [], .jsonError .FORMAT_NOT_FOUND
           "Requested format not found. It may have been filtered out (e.g., WebP formats are excluded)."⟩⟩
      | some fmt =>
        if !jsTruthy fmt.url then
          ⟨none, none,
           ⟨404, [], .jsonError .NO_URL
             "Format URL not available. This format may require signature decryption which failed. Please try a different format or fetch the video info again."⟩⟩
        else if (match fmt.mimeType with
                 | some m => jsIncludes m "webp"
                 | none => false) || fmt.container == some "webp" then
          ⟨none, none,
           ⟨400, [], .jsonError .WEBP_NOT_SUPPORTED
             "WebP formats are not supported. Please select an MP4 format."⟩⟩
        else
          match env.primaryRes with
          | .ok _ =>
            let contentType := jsOrStr fmt.mimeType "video/mp4"
            let baseHdrs :=
              [("Content-Type", contentType), ("Accept-Ranges", "bytes")] ++ corsHeaders ++
                optHeader "Content-Length" fmt.contentLength
            match range with
            | some r =>
              if r = "" then ⟨some primaryHeaders, none, ⟨200, baseHdrs, .stream⟩⟩
              else
                ⟨some primaryHeaders, none, ⟨206, baseHdrs ++ [("Content-Range", r)], .stream⟩⟩
            | none => ⟨some primaryHeaders, none, ⟨200, baseHdrs, .stream⟩⟩
          | .error se =>
            if se.statusCode == some 403 || jsIncludes se.message "403" then
              ⟨some primaryHeaders, none,
               ⟨403, [], .jsonError .ACCESS_DENIED
                 "YouTube is blocking this request (403 Forbidden). This may be due to YouTube's anti-bot measures. Please try: 1) Selecting a combined format (video+audio) which uses native browser download, 2) Waiting a few minutes and trying again, or 3) The ytdl-core library may need an update to handle YouTube's latest changes."⟩⟩
            else if jsTruthy fmt.url then
              let fbHdrs := fallbackBaseHeaders ++
                (match range with
                 | some r => if r = "" then [] else [("Range", r)]
                 | none => [])
              match env.fallbackRes with
              | .error fe =>
                ⟨some primaryHeaders, some fbHdrs,
                 ⟨500, [], .jsonError .INTERNAL_ERROR
                   (if fe.message = "" then
                     "An unexpected error occurred while downloading the video"
                    else fe.message)⟩⟩
              | .ok resp =>
                if !resp.ok then
                  ⟨some primaryHeaders, some fbHdrs,
                   ⟨resp.status, [], .jsonError .FETCH_ERROR
                     ("Failed to fetch video: " ++ resp.statusText ++ " (" ++
                      toString resp.status ++
                      "). YouTube may be blocking server-side requests. Try selecting a combined format (video+audio) which uses native browser download.")⟩⟩
                else
                  let ct := jsOrStr (jsOrOptStr resp.contentType fmt.mimeType) "video/mp4"
                  let cl := jsOrOptStr resp.contentLength fmt.contentLength
                  let ar := jsOrStr resp.acceptRanges "bytes"
                  let hdrs := [("Content-Type", ct), ("Accept-Ranges", ar)] ++ corsHeaders ++
                    optHeader "Content-Length" cl ++
                    optHeader "Content-Range" resp.contentRange
                  ⟨some primaryHeaders, some fbHdrs,
                   ⟨if resp.status = 206 then 206 else 200, hdrs, .stream⟩⟩
            else
              ⟨some primaryHeaders, none,
               ⟨500, [], .jsonError .DOWNLOAD_FAILED
                 ("Download failed: " ++
                  (if se.message = "" then "Unknown error" else se.message) ++
                  ". This format may not be available. Please try selecting a combined format (video+audio) or a different quality.")⟩⟩

/-- A proxy environment where the primary (service-driven) download
succeeds. -/
def envPrimaryOk : ProxyEnv :=
  ⟨.ok exInfoNoAV, .ok (), .error ⟨"Error", "unused", none⟩⟩

/-- A proxy environment where the primary download fails with a
non-403 network error and the direct-fetch fallback answers 206. -/
def envPrimaryFail : ProxyEnv :=
  ⟨.ok exInfoNoAV, .error ⟨"Error", "ECONNRESET", none⟩,
   .ok ⟨true, 206, "Partial Content", some "video/mp4", some "100", some "bytes",
        some "bytes 0-99/12345"⟩⟩

/-- C5, counterexample: on the primary path with a valid videoId/itag and
an inbound `Range: bytes=0-`, the response is 206 with `Content-Range`
set — but the `Range` header is NOT forwarded upstream: the headers given
to the service's download call contain no `Range` entry and the fallback
fetch (which would forward it) is never invoked. -/
theorem C5_counterexample :
    (downloadGET (some "dQw4w9WgXcQ") (some "502") (some "bytes=0-")
          envPrimaryOk).response.status = 206 ∧
      ("Content-Range", "bytes=0-") ∈
        (downloadGET (some "dQw4w9WgXcQ") (some "502") (some "bytes=0-")
          envPrimaryOk).response.headers ∧
      (downloadGET (some "dQw4w9WgXcQ") (some "502") (some "bytes=0-")
          envPrimaryOk).primaryHeadersSent = some primaryHeaders ∧
      (downloadGET (some "dQw4w9WgXcQ") (some "502") (some "bytes=0-")
          envPrimaryOk).fallbackHeadersSent = none ∧
      "Range" ∉ primaryHeaders.map Prod.fst := by
  decide

/-- C5 (amended): for a valid videoId/itag resolving to a usable
descriptor: on the primary path an inbound Range header is NOT forwarded
upstream, yet the response still has status 206 with `Content-Range` set
to the inbound range value, and without a Range header the status is
200; only the direct-fetch fallback path forwards the Range header
upstream, and there the status is 206 exactly when the upstream fetch
answered 206 (otherwise 200). -/
theorem C5_amended_theorem
    (vid it range : Option String) (env : ProxyEnv) (info : RawInfo) (n : Nat)
    (fmt : RawFormat)
    (hvid : jsTruthy vid = true) (hit : jsTruthy it = true)
    (hinfo : env.getInfoRes = .ok info)
    (hn : jsParseInt (it.getD "") = some n)
    (hfind : info.formats.find? (fun f => f.itag == n) = some fmt)
    (hurl : jsTruthy fmt.url = true)
    (hwebp : ((match fmt.mimeType with
               | some m => jsIncludes m "webp"
               | none => false) || fmt.container == some "webp") = false) :
    (env.primaryRes = .ok () → ∀ r : String, range = some r → r ≠ "" →
      (downloadGET vid it range env).response.status = 206 ∧
        ("Content-Range", r) ∈ (downloadGET vid it range env).response.headers ∧
        (downloadGET vid it range env).primaryHeadersSent = some primaryHeaders ∧
        (downloadGET vid it range env).fallbackHeadersSent = none ∧
        "Range" ∉ primaryHeaders.map Prod.fst) ∧
      (env.primaryRes = .ok () → range = none →
        (downloadGET vid it range env).response.status = 200) ∧
      (∀ se : JsError, env.primaryRes = .error se →
        (se.statusCode == some 403 || jsIncludes se.message "403") = false →
        ∀ resp : FetchResponse, env.fallbackRes = .ok resp →
        ∀ r : String, range = some r → r ≠ "" →
        (downloadGET vid it range env).fallbackHeadersSent =
            some (fallbackBaseHeaders ++ [("Range", r)]) ∧
          ("Range", r) ∈ fallbackBaseHeaders ++ [("Range", r)] ∧
          (resp.ok = true →
            (downloadGET vid it range env).response.status =
              (if resp.status = 206 then 206 else 200))) := by
  refine ⟨?_, ?_, ?_⟩
  · intro hpr r hr hrne
    subst hr
    refine ⟨?_, ?_, ?_, ?_, by decide⟩ <;>
      simp [downloadGET, hvid, hit, hinfo, hn, hfind, hurl, hwebp, hpr, hrne]
  · intro hpr hr
    subst hr
    simp [downloadGET, hvid, hit, hinfo, hn, hfind, hurl, hwebp, hpr]
  · intro se hpr h403 resp hfb r hr hrne
    subst hr
    refine ⟨?_, by simp, ?_⟩
    · simp [downloadGET, hvid, hit, hinfo, hn, hfind, hurl, hwebp, hpr, h403, hfb, hrne]
      by_cases hok : resp.ok <;> simp [hok]
    · intro hok
      simp [downloadGET, hvid, hit, hinfo, hn, hfind, hurl, hwebp, hpr, h403, hfb, hrne, hok]

/-- Witness for C5's amended clauses: the primary path answers 206 with
`Content-Range` (no upstream Range), and the fallback path forwards
`Range: bytes=0-` and propagates the upstream 206. -/
theorem C5_witness :
    ((downloadGET (some "dQw4w9WgXcQ") (some "502") (some "bytes=0-")
          envPrimaryOk).response.status = 206 ∧
        ("Content-Range", "bytes=0-") ∈
          (downloadGET (some "dQw4w9WgXcQ") (some "502") (some "bytes=0-")
            envPrimaryOk).response.headers ∧
        (downloadGET (some "dQw4w9WgXcQ") (some "502") (some "bytes=0-")
            envPrimaryOk).primaryHeadersSent = some primaryHeaders ∧
        (downloadGET (some "dQw4w9WgXcQ") (some "502") (some "bytes=0-")
            envPrimaryOk).fallbackHeadersSent = none ∧
        "Range" ∉ primaryHeaders.map Prod.fst) ∧
      ((downloadGET (some "dQw4w9WgXcQ") (some "502") (some "bytes=0-")
            envPrimaryFail).fallbackHeadersSent =
          some (fallbackBaseHeaders ++ [("Range", "bytes=0-")]) ∧
        ("Range", "bytes=0-") ∈ fallbackBaseHeaders ++ [("Range", "bytes=0-")] ∧
        (true = true →
          (downloadGET (some "dQw4w9WgXcQ") (some "502") (some "bytes=0-")
              envPrimaryFail).response.status = (if (206 : Nat) = 206 then 206 else 200))) :=
  ⟨(C5_amended_theorem (some "dQw4w9WgXcQ") (some "502") (some "bytes=0-") envPrimaryOk
        exInfoNoAV 502 exRawNoAV (by decide) (by decide) rfl (by decide) (by decide)
        (by decide) (by decide)).1 rfl "bytes=0-" rfl (by decide),
    (C5_amended_theorem (some "dQw4w9WgXcQ") (some "502") (some "bytes=0-") envPrimaryFail
        exInfoNoAV 502 exRawNoAV (by decide) (by decide) rfl (by decide) (by decide)
        (by decide) (by decide)).2.2 ⟨"Error", "ECONNRESET", none⟩ rfl (by decide)
      ⟨true, 206, "Partial Content", some "video/mp4", some "100", some "bytes",
       some "bytes 0-99/12345"⟩ rfl "bytes=0-" rfl (by decide)⟩

end YtDl
